import Mathlib

/-!
Shallow embedding of the sis-cli client library (Python) in Lean 4.

The network is modelled as an oracle `Server : String → Params → HResp`
mapping a request URI and its query parameters to an HTTP status code and a
decoded JSON body; `get_items` and the domain query functions are translated
from `src/sis/sis.py`, `src/sis/classes.py`, `src/sis/enrollments.py` and
`src/sis/course.py` over that oracle. Python dictionaries are modelled as
insertion-ordered association lists, Python exceptions as `Except PyErr`,
and the unbounded recursion of `get_items` is made total with explicit fuel
(running out of fuel is the distinguished error `PyErr.outOfFuel`).
-/

namespace SisCli

/-- Decoded JSON values, as produced by the aiohttp response body decoder. -/
inductive Json where
  | null
  | bool (b : Bool)
  | num (n : Int)
  | str (s : String)
  | arr (xs : List Json)
  | obj (fields : List (String × Json))

mutual

/-- Structural equality test on JSON values (needed because automatic
derivation does not handle the nested inductive). -/
def Json.beq : Json → Json → Bool
  | .null, .null => true
  | .bool a, .bool b => a == b
  | .num a, .num b => a == b
  | .str a, .str b => a == b
  | .arr xs, .arr ys => Json.beqList xs ys
  | .obj fs, .obj gs => Json.beqFields fs gs
  | _, _ => false

/-- Elementwise equality test on JSON arrays. -/
def Json.beqList : List Json → List Json → Bool
  | [], [] => true
  | x :: xs, y :: ys => Json.beq x y && Json.beqList xs ys
  | _, _ => false

/-- Elementwise equality test on JSON object fields. -/
def Json.beqFields : List (String × Json) → List (String × Json) → Bool
  | [], [] => true
  | (k, v) :: fs, (k', v') :: gs => k == k' && Json.beq v v' && Json.beqFields fs gs
  | _, _ => false

end

mutual

/-- The equality test decides propositional equality. -/
theorem Json.beq_iff : ∀ a b, Json.beq a b = true ↔ a = b
  | .null, .null => by simp [Json.beq]
  | .null, .bool _ => by simp [Json.beq]
  | .null, .num _ => by simp [Json.beq]
  | .null, .str _ => by simp [Json.beq]
  | .null, .arr _ => by simp [Json.beq]
  | .null, .obj _ => by simp [Json.beq]
  | .bool _, .null => by simp [Json.beq]
  | .bool _, .bool _ => by simp [Json.beq]
  | .bool _, .num _ => by simp [Json.beq]
  | .bool _, .str _ => by simp [Json.beq]
  | .bool _, .arr _ => by simp [Json.beq]
  | .bool _, .obj _ => by simp [Json.beq]
  | .num _, .null => by simp [Json.beq]
  | .num _, .bool _ => by simp [Json.beq]
  | .num _, .num _ => by simp [Json.beq]
  | .num _, .str _ => by simp [Json.beq]
  | .num _, .arr _ => by simp [Json.beq]
  | .num _, .obj _ => by simp [Json.beq]
  | .str _, .null => by simp [Json.beq]
  | .str _, .bool _ => by simp [Json.beq]
  | .str _, .num _ => by simp [Json.beq]
  | .str _, .str _ => by simp [Json.beq]
  | .str _, .arr _ => by simp [Json.beq]
  | .str _, .obj _ => by simp [Json.beq]
  | .arr _, .null => by simp [Json.beq]
  | .arr _, .bool _ => by simp [Json.beq]
  | .arr _, .num _ => by simp [Json.beq]
  | .arr _, .str _ => by simp [Json.beq]
  | .arr xs, .arr ys => by
      have h := Json.beqList_iff xs ys
      simp [Json.beq, h]
  | .arr _, .obj _ => by simp [Json.beq]
  | .obj _, .null => by simp [Json.beq]
  | .obj _, .bool _ => by simp [Json.beq]
  | .obj _, .num _ => by simp [Json.beq]
  | .obj _, .str _ => by simp [Json.beq]
  | .obj _, .arr _ => by simp [Json.beq]
  | .obj fs, .obj gs => by
      have h := Json.beqFields_iff fs gs
      simp [Json.beq, h]

/-- The array equality test decides propositional equality. -/
theorem Json.beqList_iff : ∀ xs ys, Json.beqList xs ys = true ↔ xs = ys
  | [], [] => by simp [Json.beqList]
  | [], _ :: _ => by simp [Json.beqList]
  | _ :: _, [] => by simp [Json.beqList]
  | x :: xs, y :: ys => by
      have h1 := Json.beq_iff x y
      have h2 := Json.beqList_iff xs ys
      simp [Json.beqList, h1, h2]

/-- The field equality test decides propositional equality. -/
theorem Json.beqFields_iff : ∀ fs gs, Json.beqFields fs gs = true ↔ fs = gs
  | [], [] => by simp [Json.beqFields]
  | [], _ :: _ => by simp [Json.beqFields]
  | _ :: _, [] => by simp [Json.beqFields]
  | (k, v) :: fs, (k', v') :: gs => by
      have h1 := Json.beq_iff v v'
      have h2 := Json.beqFields_iff fs gs
      simp [Json.beqFields, h1, h2]

end

instance : DecidableEq Json := fun a b =>
  decidable_of_iff (Json.beq a b = true) (Json.beq_iff a b)

/-- Python exceptions that the embedded code can raise. -/
inductive PyErr where
  | typeError
  | keyError (k : String)
  | exception (msg : String)
  | outOfFuel
  deriving DecidableEq

/-- First value bound to a key in an ordered association list (Python dict lookup). -/
def Json.lookupKey : List (String × Json) → String → Option Json
  | [], _ => none
  | (k, v) :: rest, key => if k = key then some v else Json.lookupKey rest key

instance {ε α : Type} [DecidableEq ε] [DecidableEq α] : DecidableEq (Except ε α) :=
  fun x y =>
    match x, y with
    | .ok a, .ok b =>
        if h : a = b then .isTrue (by rw [h]) else .isFalse (by simp [h])
    | .ok _, .error _ => .isFalse (by simp)
    | .error _, .ok _ => .isFalse (by simp)
    | .error e, .error f =>
        if h : e = f then .isTrue (by rw [h]) else .isFalse (by simp [h])

/-- Boolean substring test on character lists. -/
def charsHaveInfix (needle : List Char) : List Char → Bool
  | [] => needle.isEmpty
  | c :: rest => needle.isPrefixOf (c :: rest) || charsHaveInfix needle rest

/-- Python membership test `needle in container` for a string needle: key
membership for dicts, element membership for lists, substring for strings,
TypeError otherwise. -/
def pyIn (needle : String) (container : Json) : Except PyErr Bool :=
  match container with
  | .obj fs => .ok (fs.any (fun kv => kv.1 = needle))
  | .arr xs => .ok (xs.any (fun x => decide (x = .str needle)))
  | .str s => .ok (charsHaveInfix needle.toList s.toList)
  | _ => .error .typeError

/-- Python subscript `container[key]` with a string key: dict lookup raising
KeyError when absent, TypeError on non-dicts. -/
def pySubscript (container : Json) (key : String) : Except PyErr Json :=
  match container with
  | .obj fs =>
      match Json.lookupKey fs key with
      | some v => .ok v
      | none => .error (.keyError key)
  | _ => .error .typeError

/-- Python `len`. -/
def pyLen : Json → Except PyErr Nat
  | .arr xs => .ok xs.length
  | .obj fs => .ok fs.length
  | .str s => .ok s.length
  | _ => .error .typeError

/-- Python subscript `container[i]` with a non-negative integer index. -/
def pyIndex : Json → Nat → Except PyErr Json
  | .arr xs, i =>
      match xs.get? i with
      | some v => .ok v
      | none => .error (.exception "IndexError")
  | .obj _, i => .error (.keyError (toString i))
  | _, _ => .error .typeError

/-- Python `v += 1` on a dict value (ints and bools are numbers in Python). -/
def pyIncr (v : Json) : Except PyErr Json :=
  match v with
  | .num n => .ok (.num (n + 1))
  | .bool b => .ok (.num ((if b then 1 else 0) + 1))
  | _ => .error .typeError

/-- Python `xs += rhs` where `xs` is a list: extends with the elements of a
list, the keys of a dict, or the characters of a string. -/
def pyIAddList (xs : List Json) (rhs : Json) : Except PyErr (List Json) :=
  match rhs with
  | .arr ys => .ok (xs ++ ys)
  | .obj fs => .ok (xs ++ fs.map (fun kv => Json.str kv.1))
  | .str s => .ok (xs ++ s.toList.map (fun c => Json.str (String.mk [c])))
  | _ => .error .typeError

/-- Python `lhs += rhs` for the values flowing through `get_items`. -/
def pyIAdd (lhs rhs : Json) : Except PyErr Json :=
  match lhs with
  | .arr xs => (pyIAddList xs rhs).map Json.arr
  | .str a =>
      match rhs with
      | .str b => .ok (.str (a ++ b))
      | _ => .error .typeError
  | _ => .error .typeError

/-- Query parameters: a Python dict with string keys, in insertion order. -/
abbrev Params := List (String × Json)

/-- Dict lookup on the parameter mapping. -/
def getParam (ps : Params) (k : String) : Option Json := Json.lookupKey ps k

/-- In-place dict assignment: overwrite the existing binding in place, or
append a new binding at the end (Python dict insertion order). -/
def setParam : Params → String → Json → Params
  | [], k, v => [(k, v)]
  | (k', v') :: rest, k, v =>
      if k' = k then (k, v) :: rest else (k', v') :: setParam rest k v

/-- An HTTP response: status code plus decoded JSON body. -/
structure HResp where
  status : Nat
  body : Json
  deriving DecidableEq

/-- The network oracle: a GET of a URI with query parameters yields a response. -/
abbrev Server := String → Params → HResp

/-- Request headers (only passed through to the oracle-independent code). -/
abbrev Headers := List (String × String)

/-- Result of a `get_items` call: the returned Python value, the state of the
caller-shared parameter dict at return, and the parameter snapshot sent with
each HTTP request, in request order. -/
structure FetchOut where
  value : Json
  finalParams : Params
  log : List Params
  deriving DecidableEq

/-- Embedding of `sis.get_items` (src/sis/sis.py lines 35-62).

Recursively get a list of items from the SIS: a 404 returns the empty list;
a body without the apiResponse envelope, without a response key inside it,
or without the requested item collection returns the decoded body itself;
otherwise the collection is extracted and, when the parameter mapping has a
page-number key, that key is incremented in place and the next pages are
fetched and concatenated. -/
def get_items : Nat → Server → String → Params → Headers → String →
    Except PyErr FetchOut
  | 0, _, _, _, _, _ => .error .outOfFuel
  | fuel + 1, srv, uri, params, headers, itemType => do
      let r := srv uri params
      if r.status = 404 then
        return ⟨.arr [], params, [params]⟩
      let data := r.body
      let hasApi ← pyIn "apiResponse" data
      let noResponse ←
        if hasApi then do
          let api ← pySubscript data "apiResponse"
          let hasResp ← pyIn "response" api
          pure (!hasResp)
        else
          pure true
      if noResponse then
        return ⟨data, params, [params]⟩
      let api ← pySubscript data "apiResponse"
      let response ← pySubscript api "response"
      let hasItems ← pyIn itemType response
      if !hasItems then
        return ⟨data, params, [params]⟩
      let items ← pySubscript response itemType
      match getParam params "page-number" with
      | none => return ⟨items, params, [params]⟩
      | some pv => do
          let pv' ← pyIncr pv
          let params' := setParam params "page-number" pv'
          let tl ← get_items fuel srv uri params' headers itemType
          let items' ← pyIAdd items tl.value
          return ⟨items', tl.finalParams, params :: tl.log⟩

/-- Python iteration over a decoded JSON value: the elements of a list, the
keys of a dict, the one-character strings of a string; TypeError otherwise. -/
def pyIter : Json → Except PyErr (List Json)
  | .arr xs => .ok xs
  | .obj fs => .ok (fs.map (fun kv => Json.str kv.1))
  | .str s => .ok (s.toList.map (fun c => Json.str (String.mk [c])))
  | _ => .error .typeError

/-- Python str() of a decoded JSON value, for f-string URI interpolation
(only scalar values reach URI interpolation in the modelled flows). -/
def pyStr : Json → String
  | .null => "None"
  | .bool b => if b then "True" else "False"
  | .num n => toString n
  | .str s => s
  | .arr _ => "[list]"
  | .obj _ => "[dict]"

/-- jmespath field access as the source uses it in dotted path expressions:
object field lookup, null on a missing field and on any non-object (in
particular on arrays, where a dotted path yields null). -/
def jget (j : Json) (k : String) : Json :=
  match j with
  | .obj fs => (Json.lookupKey fs k).getD .null
  | _ => .null

/-- jmespath truthiness: false, null, the empty string, the empty array and
the empty object are falsy; every number is truthy. -/
def jTruthy : Json → Bool
  | .null => false
  | .bool b => b
  | .num _ => true
  | .str s => !s.isEmpty
  | .arr xs => !xs.isEmpty
  | .obj fs => !fs.isEmpty

/-- Python truthiness of a decoded JSON value (differs from jmespath
truthiness at the number zero). -/
def pyTruthy : Json → Bool
  | .null => false
  | .bool b => b
  | .num n => decide (n ≠ 0)
  | .str s => !s.isEmpty
  | .arr xs => !xs.isEmpty
  | .obj fs => !fs.isEmpty

/-- Embedding of `enrollments.enrollment_campus_uid` (src/sis/enrollments.py
lines 81-84), the jmespath query
`student.identifiers[?disclose && type=='campus-uid'].id | [0]`: keep the
identifier entries whose disclose flag is truthy and whose type is
campus-uid, project their id fields (a projection drops null results), and
take the first or null. -/
def enrollment_campus_uid (enrollment : Json) : Json :=
  match jget (jget enrollment "student") "identifiers" with
  | .arr xs =>
      let matched := xs.filter (fun x =>
        jTruthy (jget x "disclose") && decide (jget x "type" = .str "campus-uid"))
      let ids := matched.filterMap (fun x =>
        match jget x "id" with
        | .null => none
        | v => some v)
      ids.head?.getD .null
  | _ => .null

/-- One email query of `enrollments.enrollment_campus_email`, the jmespath
`student.emails[?type.code=='CODE'].emailAddress | [0]` for a given type
code (no disclose condition appears in the source expression). -/
def emailOfCode (enrollment : Json) (code : String) : Json :=
  match jget (jget enrollment "student") "emails" with
  | .arr xs =>
      let matched := xs.filter (fun x =>
        decide (jget (jget x "type") "code" = .str code))
      let addrs := matched.filterMap (fun x =>
        match jget x "emailAddress" with
        | .null => none
        | v => some v)
      addrs.head?.getD .null
  | _ => .null

/-- Embedding of `enrollments.enrollment_campus_email` (lines 86-93): the
campus email (type code CAMP) when truthy, otherwise any other email (OTHR). -/
def enrollment_campus_email (enrollment : Json) : Json :=
  let email := emailOfCode enrollment "CAMP"
  if pyTruthy email then email else emailOfCode enrollment "OTHR"

/-- Embedding of `enrollments.get_enrollment_uids` (lines 95-97). -/
def get_enrollment_uids (enrollments : List Json) : List Json :=
  enrollments.map (fun x => enrollment_campus_uid x)

/-- Embedding of `enrollments.get_enrollment_emails` (lines 99-101). -/
def get_enrollment_emails (enrollments : List Json) : List Json :=
  enrollments.map (fun x => enrollment_campus_email x)

/-- Loop of the inner `campus_uid` of `sis.get_enrollment_uids`
(src/sis/sis.py lines 249-252): return the id of the first identifier whose
type is campus-uid, with no disclose check; None when the loop completes. -/
def sisCampusUidLoop : List Json → Except PyErr Json
  | [] => .ok .null
  | x :: rest => do
      let t ← pySubscript x "type"
      if t = .str "campus-uid" then pySubscript x "id"
      else sisCampusUidLoop rest

/-- The inner `campus_uid` of `sis.get_enrollment_uids`:
`enrollment['student']['identifiers']` iterated by the loop above. -/
def sisCampusUid (enrollment : Json) : Except PyErr Json := do
  let student ← pySubscript enrollment "student"
  let identifiers ← pySubscript student "identifiers"
  let xs ← pyIter identifiers
  sisCampusUidLoop xs

/-- Embedding of `sis.get_enrollment_uids` (src/sis/sis.py lines 247-253). -/
def sis_get_enrollment_uids (enrollments : List Json) : Except PyErr (List Json) :=
  enrollments.mapM sisCampusUid

/-- Embedding of `enrollments.enrollment_status`, the jmespath
`enrollmentStatus.status.code`. -/
def enrollment_status (enrollment : Json) : Json :=
  jget (jget (jget enrollment "enrollmentStatus") "status") "code"

/-- Embedding of `enrollments.filter_enrollment_status` (lines 107-108). -/
def filter_enrollment_status (enrollments : List Json) (status : String) : List Json :=
  enrollments.filter (fun x => decide (enrollment_status x = .str status))

/-- Embedding of `enrollments.status_code` (lines 110-111): dict lookup
raising KeyError on an unknown constituency name. -/
def status_code (constituents : String) : Except PyErr String :=
  if constituents = "enrolled" then .ok "E"
  else if constituents = "waitlisted" then .ok "W"
  else if constituents = "dropped" then .ok "D"
  else .error (.keyError constituents)

/-- Embedding of `enrollments.section_subject_area`, the jmespath
`class.course.subjectArea.code` (null when applied to a list, as happens to
the list returned by `classes.get_sections_by_id`). -/
def section_subject_area (sec : Json) : Json :=
  jget (jget (jget (jget sec "class") "course") "subjectArea") "code"

/-- Embedding of `enrollments.section_catalog_number`, the jmespath
`class.course.catalogNumber.formatted`. -/
def section_catalog_number (sec : Json) : Json :=
  jget (jget (jget (jget sec "class") "course") "catalogNumber") "formatted"

/-- Accumulator loop for whitespace splitting of a character list. -/
def splitWsAux (cur : List Char) : List Char → List String
  | [] => if cur.isEmpty then [] else [String.mk cur.reverse]
  | c :: rest =>
      if c.isWhitespace then
        if cur.isEmpty then splitWsAux [] rest
        else String.mk cur.reverse :: splitWsAux [] rest
      else splitWsAux (c :: cur) rest

/-- Python str.split() with no argument: split on runs of whitespace,
dropping empty words. -/
def pySplitWs (s : String) : List String := splitWsAux [] s.toList

/-- The section description codes treated as lecture-like (both
src/sis/sis.py and src/sis/enrollments.py define this list). -/
def section_codes : List String := ["LEC", "SES", "WBL", "LAB"]

/-- Loop of `filter_lectures` (src/sis/enrollments.py lines 158-170 and the
identical src/sis/sis.py lines 21-33): skip sections without a description;
keep the code of a section whose whitespace-split description shares a word
with the relevant codes. -/
def filter_lectures_loop (relevant : List String) : List Json → Except PyErr (List Json)
  | [] => .ok []
  | s :: rest => do
      let hasDesc ← pyIn "description" s
      if !hasDesc then
        filter_lectures_loop relevant rest
      else do
        let d ← pySubscript s "description"
        match d with
        | .str ds =>
            let words := pySplitWs ds
            if words.any (fun w => relevant.contains w) then do
              let c ← pySubscript s "code"
              let tail ← filter_lectures_loop relevant rest
              return c :: tail
            else
              filter_lectures_loop relevant rest
        | _ => .error .typeError

/-- Embedding of `filter_lectures` with the default relevant codes. -/
def filter_lectures (sections : Json) : Except PyErr (List Json) := do
  let xs ← pyIter sections
  filter_lectures_loop section_codes xs

/-- SIS enrollments endpoint (src/sis/enrollments.py line 14). -/
def enrollments_uri : String := "https://apis.berkeley.edu/sis/v2/enrollments"

/-- SIS class sections endpoint (src/sis/classes.py line 15). -/
def classes_sections_uri : String :=
  "https://gateway.api.berkeley.edu/sis/v1/classes/sections"

/-- SIS class sections endpoint of the older module (src/sis/sis.py line 15). -/
def sis_classes_sections_uri : String :=
  "https://apis.berkeley.edu/sis/v1/classes/sections"

/-- SIS courses endpoint (src/sis/course.py line 16). -/
def courses_uri : String := "https://gateway.api.berkeley.edu/sis/v4/courses"

/-- Request headers built by every domain query. -/
def sisHeaders (app_id app_key : String) : Headers :=
  [("Accept", "application/json"), ("app_id", app_id), ("app_key", app_key)]

/-- Embedding of `enrollments.get_section_enrollments` (lines 45-59). -/
def get_section_enrollments (fuel : Nat) (srv : Server) (app_id app_key : String)
    (term_id : String) (section_id : Json) : Except PyErr Json := do
  let uri := enrollments_uri ++ "/terms/" ++ term_id ++ "/classes/sections/"
      ++ pyStr section_id
  let params : Params := [("page-number", .num 1), ("page-size", .num 100)]
  let out ← get_items fuel srv uri params (sisHeaders app_id app_key)
      "classSectionEnrollments"
  return out.value

/-- Embedding of `enrollments.get_lecture_section_ids` (lines 172-192). -/
def get_lecture_section_ids (fuel : Nat) (srv : Server) (app_id app_key : String)
    (term_id : String) (subject_area catalog_number : Json) :
    Except PyErr (List Json) := do
  let uri := enrollments_uri ++ "/terms/" ++ term_id ++ "/classes/sections/descriptors"
  let params : Params := [("page-number", .num 1),
                          ("subject-area-code", subject_area),
                          ("catalog-number", catalog_number)]
  let out ← get_items fuel srv uri params (sisHeaders app_id app_key) "fieldValues"
  filter_lectures out.value

/-- Accumulation loop of `enrollments.get_enrollments`: `enrollments +=`
per lecture code, left to right. -/
def get_enrollments_loop (fuel : Nat) (srv : Server) (app_id app_key term_id : String) :
    List Json → Except PyErr (List Json)
  | [] => .ok []
  | c :: rest => do
      let e ← get_section_enrollments fuel srv app_id app_key term_id c
      let this ← pyIAddList [] e
      let tail ← get_enrollments_loop fuel srv app_id app_key term_id rest
      return this ++ tail

/-- Embedding of `enrollments.get_enrollments` (lines 194-207). -/
def get_enrollments (fuel : Nat) (srv : Server) (app_id app_key : String)
    (term_id : String) (subject_area catalog_number : Json) :
    Except PyErr (List Json) := do
  let lecture_codes ← get_lecture_section_ids fuel srv app_id app_key term_id
      subject_area catalog_number
  get_enrollments_loop fuel srv app_id app_key term_id lecture_codes

/-- Embedding of `classes.get_sections_by_id` (src/sis/classes.py lines
34-52). Returns the fetched value paired with whether the multiple-sections
warning was logged: an empty result returns the empty list, and several
sections are returned as they are, with at most a warning. -/
def get_sections_by_id (fuel : Nat) (srv : Server) (app_id app_key : String)
    (term_id : Json) (class_section_id : String) (include_secondary : String) :
    Except PyErr (Json × Bool) := do
  let params : Params := [("class-section-id", .str class_section_id),
                          ("term-id", term_id),
                          ("include-secondary", .str include_secondary)]
  let uri := classes_sections_uri ++ "/" ++ class_section_id
  let out ← get_items fuel srv uri params (sisHeaders app_id app_key) "classSections"
  let sections := out.value
  let n ← pyLen sections
  if n = 0 then
    return (.arr [], false)
  else
    return (sections, decide (n > 1) && decide (include_secondary = "false"))

/-- Embedding of `sis.get_section_by_id` (src/sis/sis.py lines 207-228):
zero sections give the empty list, more than one raises the ambiguity
exception, exactly one is returned unwrapped. -/
def get_section_by_id (fuel : Nat) (srv : Server) (app_id app_key : String)
    (term_id : Json) (class_section_id : String) (include_secondary : String) :
    Except PyErr Json := do
  let params : Params := [("class-section-id", .str class_section_id),
                          ("term-id", term_id),
                          ("include-secondary", .str include_secondary),
                          ("page-size", .num 400),
                          ("page-number", .num 1)]
  let uri := sis_classes_sections_uri ++ "/" ++ class_section_id
  let out ← get_items fuel srv uri params (sisHeaders app_id app_key) "classSections"
  let sections := out.value
  let n ← pyLen sections
  if n = 0 then
    return .arr []
  else if n > 1 then
    .error (.exception ("Ambiguous sections for " ++ pyStr term_id ++ " "
        ++ class_section_id))
  else
    pyIndex sections 0

/-- Predicate of the include branch of `classes.filter_instructors_by_role`:
`"role" in x and x["role"]["code"] in codes_to_include`. -/
def roleIncludePred (codes : List String) (x : Json) : Except PyErr Bool := do
  let hasRole ← pyIn "role" x
  if !hasRole then
    return false
  let role ← pySubscript x "role"
  let code ← pySubscript role "code"
  return codes.any (fun c => decide (code = .str c))

/-- Predicate of the exclude branch of `classes.filter_instructors_by_role`:
`"role" in x and x["role"]["code"] not in codes_to_exclude`. -/
def roleExcludePred (codes : List String) (x : Json) : Except PyErr Bool := do
  let hasRole ← pyIn "role" x
  if !hasRole then
    return false
  let role ← pySubscript x "role"
  let code ← pySubscript role "code"
  return !codes.any (fun c => decide (code = .str c))

/-- Filtering with an effectful predicate, in element order (Python
`list(filter(...))` with a predicate that can raise). -/
def filterE (p : Json → Except PyErr Bool) : List Json → Except PyErr (List Json)
  | [] => .ok []
  | x :: rest => do
      let b ← p x
      let tail ← filterE p rest
      return if b then x :: tail else tail

/-- Embedding of `classes.filter_instructors_by_role` (src/sis/classes.py
lines 131-163): gsis keeps role code TNIC, instructors keeps PI, staff (and
any unrecognized filter name, via the dict-get default) keeps every record
whose role code is not APRX. -/
def filter_instructors_by_role (all_instructors : List Json) (role_filter : String) :
    Except PyErr (List Json) :=
  if role_filter = "gsis" then filterE (roleIncludePred ["TNIC"]) all_instructors
  else if role_filter = "instructors" then filterE (roleIncludePred ["PI"]) all_instructors
  else filterE (roleExcludePred ["APRX"]) all_instructors

/-- Embedding of `course.get_courses` (src/sis/course.py lines 19-31),
returning the fetched value paired with the number of HTTP requests issued:
an empty keyword-filter set returns the empty list with zero requests,
before any network call. -/
def get_courses (fuel : Nat) (srv : Server) (app_id app_key : String)
    (kwargs : Params) : Except PyErr (Json × Nat) :=
  if kwargs.length = 0 then .ok (.arr [], 0)
  else do
    let params :=
      if (Json.lookupKey kwargs "sort-by").isSome then kwargs
      else setParam kwargs "sort-by" (.str "catalog-number")
    let params := setParam params "page-number" (.num 1)
    let out ← get_items fuel srv courses_uri params (sisHeaders app_id app_key) "courses"
    return (out.value, out.log.length)

/-- Caller-supplied credential pairs, as read from the credentials mapping
inside `enrollments.get_students`. -/
structure Credentials where
  enrollments_id : String
  enrollments_key : String
  classes_id : String
  classes_key : String

/-- Embedding of `enrollments.get_students` (src/sis/enrollments.py lines
113-156). Exact mode fetches the enrollments of the one section; non-exact
mode resolves the section by id, extracts subject area and catalog number
with the jmespath queries, fetches the enrollments of every lecture-like
section of that course and unions the extracted identifiers. The final
`set(map(...))` is modelled as a `Finset`. -/
def get_students (fuel : Nat) (srv : Server) (term_id class_number constituents : String)
    (credentials : Credentials) (exact : Bool) (identifier : String) :
    Except PyErr (Finset Json) := do
  let enrollments ←
    if exact then
      get_section_enrollments fuel srv credentials.enrollments_id
        credentials.enrollments_key term_id (.str class_number)
    else do
      let sectionPair ← get_sections_by_id fuel srv credentials.classes_id
        credentials.classes_key (.str term_id) class_number "true"
      let sec := sectionPair.1
      let subject_area := section_subject_area sec
      let catalog_number := section_catalog_number sec
      let es ← get_enrollments fuel srv credentials.enrollments_id
        credentials.enrollments_key term_id subject_area catalog_number
      pure (Json.arr es)
  let constituent_enrollments ←
    if constituents = "students" then
      pure enrollments
    else do
      let code ← status_code constituents
      let xs ← pyIter enrollments
      pure (Json.arr (filter_enrollment_status xs code))
  let attr := if identifier = "campus-uid" then enrollment_campus_uid
              else enrollment_campus_email
  let xs ← pyIter constituent_enrollments
  return (xs.map attr).toFinset

/-! Fixture oracles and records used by the claim theorems. -/

/-- Oracle answering every request with HTTP 200 and a decoded body that
lacks the apiResponse envelope. -/
def srvNoEnvelope : Server := fun _ _ => ⟨200, .obj [("foo", .str "bar")]⟩

/-- Oracle answering with an apiResponse envelope that lacks the response
key. -/
def srvNoResponseKey : Server := fun _ _ =>
  ⟨200, .obj [("apiResponse", .obj [("status", .num 200)])]⟩

/-- Oracle answering with a response object that lacks the requested item
collection. -/
def srvNoCollection : Server := fun _ _ =>
  ⟨200, .obj [("apiResponse", .obj [("response", .obj [("other", .arr [])])])]⟩

/-- Oracle answering every request with HTTP 401 and a JSON error body. -/
def srvUnauthorized : Server := fun _ _ =>
  ⟨401, .obj [("error", .str "unauthorized")]⟩

/-- Oracle answering 404 to every request. -/
def srvAlways404 : Server := fun _ _ => ⟨404, .null⟩

/-- A well-formed enveloped body holding one item collection. -/
def envelope (itemType : String) (items : List Json) : Json :=
  .obj [("apiResponse", .obj [("response", .obj [(itemType, .arr items)])])]

/-- Items served on one page of the synthetic paged endpoint: page p carries
the n items numbered n*p, ..., n*p+n-1, so that distinct pages carry
distinct items and concatenation order is observable. -/
def pageItems (n p : Nat) : List Json :=
  (List.range n).map (fun i => Json.num ((n * p + i : Nat) : Int))

/-- One well-formed page body of the synthetic paged endpoint. -/
def pagedBody (itemType : String) (n p : Nat) : Json :=
  envelope itemType (pageItems n p)

/-- The synthetic paged endpoint of the pagination claims: page numbers
1..k answer well-formed pages of n items each, every other page number
answers 404. -/
def srvPaged (itemType : String) (k n : Nat) : Server := fun _ params =>
  match getParam params "page-number" with
  | some (.num p) =>
      if 1 ≤ p ∧ p ≤ (k : Int) then ⟨200, pagedBody itemType n p.toNat⟩
      else ⟨404, .null⟩
  | _ => ⟨404, .null⟩

/-- Concatenation of the pages p, p+1, ..., p+d-1 of the synthetic paged
endpoint, in order. -/
def pagesConcat (n : Nat) : Nat → Nat → List Json
  | _, 0 => []
  | p, d + 1 => pageItems n p ++ pagesConcat n (p + 1) d

/-- Expected request log of a synthetic paged run: the parameter snapshot of
each request, page numbers counting up from p through d further requests. -/
def pagedLog : Nat → Nat → List Params
  | p, 0 => [[("page-number", Json.num (p : Int))]]
  | p, d + 1 => [("page-number", Json.num (p : Int))] :: pagedLog (p + 1) d

/-- Oracle of the section-lookup claims: serves the given class sections on
the first page of every endpoint, and 404 from page 2 on. -/
def srvSections (sections : List Json) : Server := fun _ params =>
  match getParam params "page-number" with
  | some (.num 1) => ⟨200, envelope "classSections" sections⟩
  | some _ => ⟨404, .null⟩
  | none => ⟨200, envelope "classSections" sections⟩

/-- The role code of an instructor record: present when the record is an
object whose role field is an object bearing a code. -/
def recRoleCode (x : Json) : Option Json :=
  match x with
  | .obj fs =>
      match Json.lookupKey fs "role" with
      | some (.obj rfs) => Json.lookupKey rfs "code"
      | _ => none
  | _ => none

/-- Records on which the role predicates of the source cannot raise: an
object without a role field, or whose role field is an object bearing a
code. -/
def roleWf (x : Json) : Bool :=
  match x with
  | .obj fs =>
      match Json.lookupKey fs "role" with
      | none => true
      | some (.obj rfs) => (Json.lookupKey rfs "code").isSome
      | some _ => false
  | _ => false

/-- The pure predicate that `filter_instructors_by_role` computes on
well-formed records. -/
def pureRolePred (role_filter : String) (x : Json) : Bool :=
  match recRoleCode x with
  | none => false
  | some c =>
      if role_filter = "gsis" then decide (c = .str "TNIC")
      else if role_filter = "instructors" then decide (c = .str "PI")
      else decide (¬(c = .str "APRX"))

/-- Instructor record with the primary-instructor role code. -/
def piRecord : Json := .obj [("role", .obj [("code", .str "PI")]), ("name", .str "A")]

/-- Instructor record with the GSI role code. -/
def tnicRecord : Json := .obj [("role", .obj [("code", .str "TNIC")]), ("name", .str "B")]

/-- Instructor record with an unknown role code. -/
def unknownRoleRecord : Json :=
  .obj [("role", .obj [("code", .str "ZZZ")]), ("name", .str "C")]

/-- Instructor record without a role field. -/
def noRoleRecord : Json := .obj [("name", .str "D")]

/-- The student record shared by the lecture and lab enrollments of the
aggregation fixture. -/
def studentU1 : Json :=
  .obj [("identifiers", .arr [
    .obj [("disclose", .bool true), ("id", .str "U1"), ("type", .str "campus-uid")]])]

/-- Lecture enrollment of the aggregation fixture: student U1 in the lecture. -/
def lecEnrollment : Json := .obj [("student", studentU1), ("sectionKind", .str "LEC")]

/-- Lab enrollment of the aggregation fixture: the same student U1 in the lab. -/
def labEnrollment : Json := .obj [("student", studentU1), ("sectionKind", .str "LAB")]

/-- Oracle of the aggregation claim: one course in term 2262 whose class
section 12345 resolves, with a lecture (code L1) and a lab (code L2) in its
descriptors, each enrolling student U1; every page past the first answers
404. -/
def srvLectureLab : Server := fun uri params =>
  let firstPage :=
    match getParam params "page-number" with
    | some (.num 1) => true
    | none => true
    | _ => false
  if !firstPage then ⟨404, .null⟩
  else if uri = classes_sections_uri ++ "/12345" then
    ⟨200, envelope "classSections" [.obj [("id", .num 12345)]]⟩
  else if uri = enrollments_uri ++ "/terms/2262/classes/sections/descriptors" then
    ⟨200, envelope "fieldValues" [
      .obj [("code", .str "L1"), ("description", .str "2026 Spring STAT 20 001 LEC 001")],
      .obj [("code", .str "L2"), ("description", .str "2026 Spring STAT 20 101 LAB 001")]]⟩
  else if uri = enrollments_uri ++ "/terms/2262/classes/sections/L1" then
    ⟨200, envelope "classSectionEnrollments" [lecEnrollment]⟩
  else if uri = enrollments_uri ++ "/terms/2262/classes/sections/L2" then
    ⟨200, envelope "classSectionEnrollments" [labEnrollment]⟩
  else ⟨404, .null⟩

/-- Concrete credential pairs for the fixtures. -/
def credsFix : Credentials := ⟨"ei", "ek", "ci", "ck"⟩

/-- The enrollment of the disclosure example of the spec: an undisclosed
campus-uid 1 listed before a disclosed campus-uid 2. -/
def discloseExampleEnrollment : Json :=
  .obj [("student", .obj [("identifiers", .arr [
    .obj [("type", .str "campus-uid"), ("disclose", .bool false), ("id", .str "1")],
    .obj [("type", .str "campus-uid"), ("disclose", .bool true), ("id", .str "2")]])])]

/-- An enrollment whose only email is a campus email with disclose false. -/
def undisclosedEmailEnrollment : Json :=
  .obj [("student", .obj [("emails", .arr [
    .obj [("type", .obj [("code", .str "CAMP")]), ("disclose", .bool false),
          ("emailAddress", .str "u@berkeley.edu")]])])]

/-- An enrollment with no identifier and no email entries at all. -/
def emptyEnrollment : Json := .obj [("student", .obj [])]

/-- A first concrete section record. -/
def secA : Json := .obj [("id", .num 1)]

/-- A second concrete section record. -/
def secB : Json := .obj [("id", .num 2)]

/-! Helper lemmas. -/

/-- Bind on a successful Except computation. -/
theorem exceptBind_ok {α β : Type} (a : α) (f : α → Except PyErr β) :
    (Except.ok a >>= f) = f a := rfl

/-- Bind on a raised Except computation. -/
theorem exceptBind_err {α β : Type} (e : PyErr) (f : α → Except PyErr β) :
    ((Except.error e : Except PyErr α) >>= f) = .error e := rfl

/-- Pure is ok. -/
theorem exceptPure {α : Type} (a : α) : (pure a : Except PyErr α) = .ok a := rfl

/-- Map on a successful Except computation. -/
theorem exceptMap_ok {α β : Type} (f : α → β) (a : α) :
    Except.map f (Except.ok a : Except PyErr α) = .ok (f a) := rfl

/-- Central pagination lemma: running `get_items` against the synthetic
paged endpoint from page p, with d = k + 1 - p further requests to go,
returns the concatenation of the remaining pages, leaves the page-number
parameter at k + 1, and logs one request per page from p through k + 1. -/
theorem get_items_paged (uri itemType : String) (hdr : Headers) (k n : Nat) :
    ∀ (d p : Nat), p + d = k + 1 → 1 ≤ p →
      get_items (d + 1) (srvPaged itemType k n) uri
          [("page-number", .num (p : Int))] hdr itemType
        = .ok ⟨.arr (pagesConcat n p d),
               [("page-number", .num ((k + 1 : Nat) : Int))],
               pagedLog p d⟩
  | 0, p, hpd, hp => by
      have hpk : p = k + 1 := by omega
      subst hpk
      have hguard : ¬((1 : Int) ≤ (k : Int) + 1 ∧ (k : Int) + 1 ≤ (k : Int)) := by
        omega
      have hsrv : srvPaged itemType k n uri [("page-number", .num ((k : Int) + 1))]
          = ⟨404, .null⟩ := by
        simp [srvPaged, getParam, Json.lookupKey, hguard]
      simp [get_items, hsrv, pagesConcat, pagedLog, exceptPure]
  | d + 1, p, hpd, hp => by
      have hple : p ≤ k := by omega
      have hIH := get_items_paged uri itemType hdr k n d (p + 1) (by omega) (by omega)
      push_cast at hIH
      have hguard : ((1 : Int) ≤ (p : Int) ∧ (p : Int) ≤ (k : Int)) := by
        constructor
        · exact_mod_cast hp
        · exact_mod_cast hple
      have hsrv : srvPaged itemType k n uri [("page-number", .num (p : Int))]
          = ⟨200, pagedBody itemType n p⟩ := by
        simp [srvPaged, getParam, Json.lookupKey, hguard]
      rw [get_items.eq_2]
      simp [hsrv, pagedBody, envelope, pyIn, pySubscript, Json.lookupKey, getParam,
        pyIncr, setParam, pyIAdd, pyIAddList, exceptBind_ok, exceptBind_err, exceptPure,
        exceptMap_ok, hIH, pagesConcat, pagedLog]

/-- Each synthetic page carries n items. -/
theorem pageItems_length (n p : Nat) : (pageItems n p).length = n := by
  rw [pageItems, List.length_map, List.length_range]

/-- Each synthetic page carries n items, so d pages carry d * n. -/
theorem pagesConcat_length (n : Nat) : ∀ d p, (pagesConcat n p d).length = d * n
  | 0, _ => by simp [pagesConcat]
  | d + 1, p => by
      have h := pagesConcat_length n d (p + 1)
      rw [pagesConcat, List.length_append, pageItems_length, h]
      ring

/-- A paged run from page p with d further requests logs d + 1 requests. -/
theorem pagedLog_length : ∀ d p, (pagedLog p d).length = d + 1
  | 0, _ => by simp [pagedLog]
  | d + 1, p => by
      have h := pagedLog_length d (p + 1)
      simp [pagedLog, h]

/-- The request log counts page numbers up one by one from the start page. -/
theorem pagedLog_eq_range : ∀ d p, pagedLog p d
    = (List.range (d + 1)).map
        (fun i => [("page-number", Json.num ((p + i : Nat) : Int))])
  | 0, p => by simp [pagedLog, List.range_succ]
  | d + 1, p => by
      have h := pagedLog_eq_range d (p + 1)
      rw [pagedLog, h]
      conv_rhs => rw [List.range_succ_eq_map, List.map_cons, List.map_map]
      congr 1
      apply List.map_congr_left
      intro i _
      simp [Function.comp]
      omega

theorem get_items_no_page_key (fuel : Nat) (srv : Server) (uri : String)
    (params : Params) (hdr : Headers) (itemType : String) (out : FetchOut)
    (hnk : getParam params "page-number" = none)
    (h : get_items fuel srv uri params hdr itemType = .ok out) :
    out.finalParams = params ∧ out.log = [params] := by
  match fuel with
  | 0 => simp [get_items] at h
  | fuel + 1 =>
    rw [get_items.eq_2] at h
    split at h
    · obtain rfl := Except.ok.inj h
      exact ⟨rfl, rfl⟩
    · simp only [exceptBind_ok, exceptBind_err, exceptPure, hnk] at h
      cases hApi : pyIn "apiResponse" (srv uri params).body with
      | error e =>
          rw [hApi] at h
          simp [exceptBind_err] at h
      | ok hasApi =>
          rw [hApi, exceptBind_ok] at h
          cases hasApi with
          | false =>
              simp only [Bool.false_eq_true, if_false, reduceIte] at h
              injection h with h'
              subst h'
              exact ⟨rfl, rfl⟩
          | true =>
              simp only [if_true, reduceIte] at h
              cases hSub : pySubscript (srv uri params).body "apiResponse" with
              | error e =>
                  rw [hSub] at h
                  simp [exceptBind_err] at h
              | ok api =>
                  rw [hSub, exceptBind_ok] at h
                  cases hResp : pyIn "response" api with
                  | error e =>
                      rw [hResp] at h
                      simp [exceptBind_err] at h
                  | ok hasResp =>
                      rw [hResp, exceptBind_ok] at h
                      cases hasResp with
                      | false =>
                          simp only [Bool.not_false, if_true, reduceIte] at h
                          injection h with h'
                          subst h'
                          exact ⟨rfl, rfl⟩
                      | true =>
                          simp only [Bool.not_true, Bool.false_eq_true, if_false,
                            reduceIte] at h
                          rw [exceptBind_ok] at h
                          cases hResp2 : pySubscript api "response" with
                          | error e =>
                              rw [hResp2] at h
                              simp [exceptBind_err] at h
                          | ok response =>
                              rw [hResp2, exceptBind_ok] at h
                              cases hItems : pyIn itemType response with
                              | error e =>
                                  rw [hItems] at h
                                  simp [exceptBind_err] at h
                              | ok hasItems =>
                                  rw [hItems, exceptBind_ok] at h
                                  cases hasItems with
                                  | false =>
                                      simp only [Bool.not_false, if_true, reduceIte] at h
                                      injection h with h'
                                      subst h'
                                      exact ⟨rfl, rfl⟩
                                  | true =>
                                      simp only [Bool.not_true, Bool.false_eq_true,
                                        if_false, reduceIte] at h
                                      cases hIt : pySubscript response itemType with
                                      | error e =>
                                          rw [hIt] at h
                                          simp [exceptBind_err] at h
                                      | ok items =>
                                          rw [hIt, exceptBind_ok] at h
                                          injection h with h'
                                          subst h'
                                          exact ⟨rfl, rfl⟩

theorem get_items_ignores_status (body : Json) (s : Nat) (hs : s ≠ 404) :
    ∀ (fuel : Nat) (uri : String) (params : Params) (hdr : Headers) (itemType : String),
      get_items fuel (fun _ _ => ⟨s, body⟩) uri params hdr itemType
        = get_items fuel (fun _ _ => ⟨401, body⟩) uri params hdr itemType
  | 0, _, _, _, _ => rfl
  | fuel + 1, uri, params, hdr, itemType => by
      have hIH := get_items_ignores_status body s hs fuel uri
      have h401 : (401 : Nat) ≠ 404 := by decide
      rw [get_items.eq_2, get_items.eq_2]
      simp only [hs, h401, if_false, reduceIte, exceptBind_ok, exceptBind_err,
        exceptPure, hIH]

theorem lookupKey_isSome (k : String) :
    ∀ fs : List (String × Json),
      (Json.lookupKey fs k).isSome = fs.any (fun kv => decide (kv.1 = k))
  | [] => rfl
  | (a, b) :: rest => by
      by_cases h : a = k <;>
        simp [Json.lookupKey, h, lookupKey_isSome k rest]

theorem filterE_ok (p : Json → Except PyErr Bool) (q : Json → Bool) :
    ∀ l : List Json, (∀ x ∈ l, p x = .ok (q x)) → filterE p l = .ok (l.filter q)
  | [], _ => rfl
  | x :: rest, h => by
      have hx := h x (by simp)
      have hr := filterE_ok p q rest (fun y hy => h y (by simp [hy]))
      simp only [filterE, hx, hr, exceptBind_ok, exceptPure, List.filter_cons]

theorem roleWf_shape (fs : List (String × Json)) (h : roleWf (.obj fs) = true) :
    Json.lookupKey fs "role" = none ∨
    ∃ rfs c, Json.lookupKey fs "role" = some (.obj rfs)
      ∧ Json.lookupKey rfs "code" = some c := by
  rw [roleWf] at h
  cases hrole : Json.lookupKey fs "role" with
  | none => exact .inl rfl
  | some role =>
      rw [hrole] at h
      match role, h with
      | .obj rfs, h =>
          simp only [] at h
          cases hcode : Json.lookupKey rfs "code" with
          | none => simp [hcode] at h
          | some c => exact .inr ⟨rfs, c, rfl, hcode⟩

theorem roleIncludePred_wf (codes : List String) (x : Json) (h : roleWf x = true) :
    roleIncludePred codes x
      = .ok ((recRoleCode x).elim false
          (fun c => codes.any (fun s => decide (c = .str s)))) := by
  match x, h with
  | .obj fs, h =>
      rcases roleWf_shape fs h with hrole | ⟨rfs, c, hrole, hcode⟩
      · have hany : (fs.any (fun kv => decide (kv.1 = "role"))) = false := by
          rw [← lookupKey_isSome, hrole]
          rfl
        simp [roleIncludePred, pyIn, recRoleCode, hrole, hany, exceptBind_ok, exceptPure]
      · have hany : (fs.any (fun kv => decide (kv.1 = "role"))) = true := by
          rw [← lookupKey_isSome, hrole]
          rfl
        simp [roleIncludePred, pyIn, hany, exceptBind_ok, pySubscript,
          hrole, hcode, recRoleCode, exceptPure]

theorem roleExcludePred_wf (codes : List String) (x : Json) (h : roleWf x = true) :
    roleExcludePred codes x
      = .ok ((recRoleCode x).elim false
          (fun c => !codes.any (fun s => decide (c = .str s)))) := by
  match x, h with
  | .obj fs, h =>
      rcases roleWf_shape fs h with hrole | ⟨rfs, c, hrole, hcode⟩
      · have hany : (fs.any (fun kv => decide (kv.1 = "role"))) = false := by
          rw [← lookupKey_isSome, hrole]
          rfl
        simp [roleExcludePred, pyIn, recRoleCode, hrole, hany, exceptBind_ok, exceptPure]
      · have hany : (fs.any (fun kv => decide (kv.1 = "role"))) = true := by
          rw [← lookupKey_isSome, hrole]
          rfl
        simp [roleExcludePred, pyIn, hany, exceptBind_ok, pySubscript,
          hrole, hcode, recRoleCode, exceptPure]

theorem filter_instructors_by_role_wf (pool : List Json) (m : String)
    (h : ∀ x ∈ pool, roleWf x = true) :
    filter_instructors_by_role pool m = .ok (pool.filter (pureRolePred m)) := by
  by_cases h1 : m = "gsis"
  · subst h1
    rw [filter_instructors_by_role, if_pos rfl]
    apply filterE_ok
    intro x hx
    rw [roleIncludePred_wf _ _ (h x hx)]
    cases hc : recRoleCode x <;> simp [pureRolePred, hc]
  · by_cases h2 : m = "instructors"
    · subst h2
      rw [filter_instructors_by_role, if_neg (by decide), if_pos rfl]
      apply filterE_ok
      intro x hx
      rw [roleIncludePred_wf _ _ (h x hx)]
      cases hc : recRoleCode x <;> simp [pureRolePred, hc]
    · rw [filter_instructors_by_role, if_neg h1, if_neg h2]
      apply filterE_ok
      intro x hx
      rw [roleExcludePred_wf _ _ (h x hx)]
      cases hc : recRoleCode x <;> simp [pureRolePred, hc, h1, h2]

theorem jgetId_eq_of_some (a w : Json)
    (h : (match jget a "id" with | Json.null => none | v => some v) = some w) :
    jget a "id" = w := by
  cases hja : jget a "id" <;> rw [hja] at h <;>
    first
      | exact Option.some.inj h
      | simp at h

theorem enrollment_campus_uid_only_disclosed (e v : Json)
    (hv : enrollment_campus_uid e = v) (hnn : v ≠ .null) :
    ∃ xs, jget (jget e "student") "identifiers" = .arr xs ∧
      ∃ x, x ∈ xs ∧ jTruthy (jget x "disclose") = true
        ∧ jget x "type" = .str "campus-uid" ∧ jget x "id" = v := by
  rw [enrollment_campus_uid] at hv
  cases hids : jget (jget e "student") "identifiers" with
  | null => rw [hids] at hv; exact absurd hv.symm hnn
  | bool b => rw [hids] at hv; exact absurd hv.symm hnn
  | num n => rw [hids] at hv; exact absurd hv.symm hnn
  | str s => rw [hids] at hv; exact absurd hv.symm hnn
  | obj fs => rw [hids] at hv; exact absurd hv.symm hnn
  | arr xs =>
      rw [hids] at hv
      simp only [] at hv
      refine ⟨xs, rfl, ?_⟩
      cases hh : ((xs.filter (fun x =>
          jTruthy (jget x "disclose") && decide (jget x "type" = .str "campus-uid"))).filterMap
            (fun x => match jget x "id" with | Json.null => none | v => some v)).head? with
      | none =>
          rw [hh] at hv
          exact absurd hv.symm hnn
      | some w =>
          rw [hh] at hv
          obtain rfl : w = v := hv
          have hmem := List.mem_of_mem_head? (Option.mem_def.mpr hh)
          obtain ⟨a, haf, hfa⟩ := List.mem_filterMap.mp hmem
          obtain ⟨hax, hpa⟩ := List.mem_filter.mp haf
          rw [Bool.and_eq_true] at hpa
          obtain ⟨hdis, hty⟩ := hpa
          exact ⟨a, hax, hdis, of_decide_eq_true hty, jgetId_eq_of_some a w hfa⟩

theorem getParam_setParam (k : String) (v : Json) :
    ∀ ps : Params, getParam (setParam ps k v) k = some v
  | [] => by simp [setParam, getParam, Json.lookupKey]
  | (a, b) :: rest => by
      have ih := getParam_setParam k v rest
      rw [getParam] at ih
      by_cases h : a = k <;> simp [setParam, getParam, Json.lookupKey, h, ih]

theorem get_items_srvSections (xs : List Json) (uri : String) (hdr : Headers)
    (params : Params) (h1 : getParam params "page-number" = some (.num 1)) :
    get_items 2 (srvSections xs) uri params hdr "classSections"
      = .ok ⟨.arr xs, setParam params "page-number" (.num 2),
             [params, setParam params "page-number" (.num 2)]⟩ := by
  have h2 : getParam (setParam params "page-number" (.num 2)) "page-number"
      = some (.num 2) := getParam_setParam _ _ _
  have hsrv1 : srvSections xs uri params = ⟨200, envelope "classSections" xs⟩ := by
    simp [srvSections, h1]
  have hsrv2 : srvSections xs uri (setParam params "page-number" (.num 2))
      = ⟨404, .null⟩ := by
    simp [srvSections, h2]
  rw [get_items.eq_2]
  simp [hsrv1, hsrv2, envelope, pyIn, pySubscript, Json.lookupKey, h1, pyIncr,
    exceptBind_ok, exceptBind_err, exceptPure, exceptMap_ok, pyIAdd, pyIAddList,
    get_items]

theorem get_items_srvSections_nopage (xs : List Json) (uri : String) (hdr : Headers)
    (params : Params) (h1 : getParam params "page-number" = none) :
    get_items 1 (srvSections xs) uri params hdr "classSections"
      = .ok ⟨.arr xs, params, [params]⟩ := by
  have hsrv1 : srvSections xs uri params = ⟨200, envelope "classSections" xs⟩ := by
    simp [srvSections, h1]
  rw [get_items.eq_2]
  simp [hsrv1, envelope, pyIn, pySubscript, Json.lookupKey, h1,
    exceptBind_ok, exceptBind_err, exceptPure, exceptMap_ok]

theorem get_section_by_id_srvSections (xs : List Json) :
    get_section_by_id 2 (srvSections xs) "ai" "ak" (.str "2262") "12345" "true"
      = (if xs.length = 0 then .ok (.arr [])
         else if xs.length > 1 then
           .error (.exception "Ambiguous sections for 2262 12345")
         else pyIndex (.arr xs) 0) := by
  have h := get_items_srvSections xs (sis_classes_sections_uri ++ "/" ++ "12345")
      (sisHeaders "ai" "ak")
      [("class-section-id", .str "12345"), ("term-id", .str "2262"),
       ("include-secondary", .str "true"), ("page-size", .num 400),
       ("page-number", .num 1)] (by rfl)
  have hstr : "Ambiguous sections for " ++ "2262" ++ " " ++ "12345"
      = "Ambiguous sections for 2262 12345" := rfl
  simp only [get_section_by_id, h, exceptBind_ok, pyLen, exceptPure, pyStr, hstr]

theorem get_sections_by_id_srvSections (xs : List Json) (inc : String) :
    get_sections_by_id 1 (srvSections xs) "ci" "ck" (.str "2262") "12345" inc
      = (if xs.length = 0 then .ok (.arr [], false)
         else .ok (.arr xs, decide (xs.length > 1) && decide (inc = "false"))) := by
  have h := get_items_srvSections_nopage xs (classes_sections_uri ++ "/" ++ "12345")
      (sisHeaders "ci" "ck")
      [("class-section-id", .str "12345"), ("term-id", .str "2262"),
       ("include-secondary", .str inc)] (by rfl)
  simp only [get_sections_by_id, h, exceptBind_ok, pyLen, exceptPure]

/-! Claim theorems. -/

/-- Claim C1, code-bug evidence: when the decoded body lacks the apiResponse
envelope, lacks the response key inside it, or lacks the requested item
collection, `get_items` returns the decoded body itself (here a non-empty
dict), not an empty collection. -/
theorem C1_missing_envelope_returns_body :
    get_items 1 srvNoEnvelope "u" [] [] "things"
      = .ok ⟨.obj [("foo", .str "bar")], [], [[]]⟩
    ∧ get_items 1 srvNoResponseKey "u" [] [] "things"
      = .ok ⟨.obj [("apiResponse", .obj [("status", .num 200)])], [], [[]]⟩
    ∧ get_items 1 srvNoCollection "u" [] [] "things"
      = .ok ⟨.obj [("apiResponse", .obj [("response", .obj [("other", .arr [])])])],
             [], [[]]⟩
    ∧ Json.obj [("foo", .str "bar")] ≠ .arr [] := by decide

/-- Claim C2: against a paged endpoint serving k well-formed pages of n
items each and 404 afterwards, `get_items` terminates (fuel k + 1 suffices),
returns the k pages concatenated in order — k * n items — and issues k + 1
requests whose page numbers go up by one from 1. -/
theorem C2_pagination_k_pages (uri itemType : String) (hdr : Headers) (k n : Nat) :
    get_items (k + 1) (srvPaged itemType k n) uri
        [("page-number", .num (1 : Int))] hdr itemType
      = .ok ⟨.arr (pagesConcat n 1 k),
             [("page-number", .num ((k + 1 : Nat) : Int))], pagedLog 1 k⟩
    ∧ (pagesConcat n 1 k).length = k * n
    ∧ (pagedLog 1 k).length = k + 1
    ∧ pagedLog 1 k = (List.range (k + 1)).map
        (fun i => [("page-number", Json.num ((1 + i : Nat) : Int))]) := by
  refine ⟨?_, pagesConcat_length n k 1, pagedLog_length k 1, pagedLog_eq_range k 1⟩
  have h := get_items_paged uri itemType hdr k n k 1 (by omega) (by omega)
  simpa using h

/-- Claim C3, counterexample: email extraction surfaces a campus email whose
disclose flag is false, and the older `sis.get_enrollment_uids` returns the
undisclosed identifier 1 of the spec example rather than only the disclosed
2 — so disclosure gating does not hold for every extraction. -/
theorem C3_undisclosed_surfaced_counterexample :
    enrollment_campus_email undisclosedEmailEnrollment = .str "u@berkeley.edu"
    ∧ sis_get_enrollment_uids [discloseExampleEnrollment] = .ok [.str "1"] := by
  decide

/-- Claim C3, amended: `enrollments.enrollment_campus_uid` surfaces an
identifier only from an entry with a truthy disclose flag and type
campus-uid, and returns 2 on the spec example; email extraction filters on
the type code only and returns an email with disclose false; the older
`sis.get_enrollment_uids` ignores the disclose flag entirely. -/
theorem C3_disclosure_amended :
    (∀ e v, enrollment_campus_uid e = v → v ≠ .null →
      ∃ xs, jget (jget e "student") "identifiers" = .arr xs ∧
        ∃ x, x ∈ xs ∧ jTruthy (jget x "disclose") = true
          ∧ jget x "type" = .str "campus-uid" ∧ jget x "id" = v)
    ∧ enrollment_campus_uid discloseExampleEnrollment = .str "2"
    ∧ enrollment_campus_email undisclosedEmailEnrollment = .str "u@berkeley.edu"
    ∧ sis_get_enrollment_uids [discloseExampleEnrollment] = .ok [.str "1"] := by
  refine ⟨enrollment_campus_uid_only_disclosed, by decide, by decide, by decide⟩

/-- Claim C4, counterexample: a 401 response is not fatal — `get_items`
returns the decoded error body as an ordinary value instead of failing. -/
theorem C4_unauthorized_returns_value_counterexample :
    get_items 1 srvUnauthorized "u" [("page-number", .num 1)] [] "things"
      = .ok ⟨.obj [("error", .str "unauthorized")], [("page-number", .num 1)],
             [[("page-number", .num 1)]]⟩ := by decide

/-- Claim C4, amended: `get_items` checks only for status 404; every other
status, 401 included, is processed identically, and a 401 JSON error body
comes back as an ordinary value — the code raises no authentication error. -/
theorem C4_status_not_special_amended :
    (∀ (fuel : Nat) (uri : String) (params : Params) (hdr : Headers)
        (itemType : String) (s : Nat) (body : Json), s ≠ 404 →
      get_items fuel (fun _ _ => ⟨s, body⟩) uri params hdr itemType
        = get_items fuel (fun _ _ => ⟨401, body⟩) uri params hdr itemType)
    ∧ get_items 1 srvUnauthorized "u" [] [] "things"
        = .ok ⟨.obj [("error", .str "unauthorized")], [], [[]]⟩ := by
  refine ⟨?_, by decide⟩
  intro fuel uri params hdr itemType s body hs
  exact get_items_ignores_status body s hs fuel uri params hdr itemType

/-- Claim C5, counterexample: `classes.get_sections_by_id` — the section
lookup used by the roster and instructor queries — returns two section
records as they are, with no error and (with include-secondary true) not
even a warning. -/
theorem C5_two_sections_no_error_counterexample :
    get_sections_by_id 1 (srvSections [secA, secB]) "ci" "ck" (.str "2262")
        "12345" "true" = .ok (.arr [secA, secB], false) := by decide

/-- Claim C5, amended: only the older `sis.get_section_by_id` raises the
fatal ambiguity exception on more than one section, returns the empty list
on zero sections and the record itself on exactly one;
`classes.get_sections_by_id` returns every fetched section without error,
logging a warning only when more than one arrives with include-secondary
false. -/
theorem C5_ambiguity_amended :
    (∀ (s1 s2 : Json) (rest : List Json),
      get_section_by_id 2 (srvSections (s1 :: s2 :: rest)) "ai" "ak" (.str "2262")
          "12345" "true" = .error (.exception "Ambiguous sections for 2262 12345"))
    ∧ get_section_by_id 2 (srvSections []) "ai" "ak" (.str "2262") "12345" "true"
        = .ok (.arr [])
    ∧ (∀ s : Json, get_section_by_id 2 (srvSections [s]) "ai" "ak" (.str "2262")
          "12345" "true" = .ok s)
    ∧ (∀ (s1 s2 : Json) (rest : List Json),
        get_sections_by_id 1 (srvSections (s1 :: s2 :: rest)) "ci" "ck" (.str "2262")
            "12345" "true" = .ok (.arr (s1 :: s2 :: rest), false))
    ∧ (∀ (s1 s2 : Json) (rest : List Json),
        get_sections_by_id 1 (srvSections (s1 :: s2 :: rest)) "ci" "ck" (.str "2262")
            "12345" "false" = .ok (.arr (s1 :: s2 :: rest), true)) := by
  refine ⟨?_, by decide, ?_, ?_, ?_⟩
  · intro s1 s2 rest
    rw [get_section_by_id_srvSections]
    rw [if_neg (by simp), if_pos (by simp)]
  · intro s
    rw [get_section_by_id_srvSections]
    rw [if_neg (by simp), if_neg (by simp)]
    simp [pyIndex]
  · intro s1 s2 rest
    rw [get_sections_by_id_srvSections]
    rw [if_neg (by simp)]
    simp
  · intro s1 s2 rest
    rw [get_sections_by_id_srvSections]
    rw [if_neg (by simp)]
    have hlen : decide ((s1 :: s2 :: rest).length > 1) = true :=
      decide_eq_true (by simp)
    simp [hlen]

theorem pureRolePred_instructors_iff (x : Json) :
    pureRolePred "instructors" x = true ↔ recRoleCode x = some (.str "PI") := by
  cases hc : recRoleCode x <;> simp [pureRolePred, hc]

theorem pureRolePred_gsis_iff (x : Json) :
    pureRolePred "gsis" x = true ↔ recRoleCode x = some (.str "TNIC") := by
  cases hc : recRoleCode x <;> simp [pureRolePred, hc]

theorem pureRolePred_staff_iff (x : Json) :
    pureRolePred "staff" x = true
      ↔ ∃ c, recRoleCode x = some c ∧ c ≠ .str "APRX" := by
  cases hc : recRoleCode x <;> simp [pureRolePred, hc]

/-- Claim C6, counterexample: a record with the unknown role code ZZZ is
kept by the staff filter (though excluded from instructors and gsis), and a
primary instructor appears in both the staff and the instructors results —
so the three result sets overlap and unknown roles are not excluded from
staff. -/
theorem C6_unknown_role_in_staff_counterexample :
    filter_instructors_by_role [unknownRoleRecord] "staff" = .ok [unknownRoleRecord]
    ∧ filter_instructors_by_role [unknownRoleRecord] "instructors" = .ok []
    ∧ filter_instructors_by_role [unknownRoleRecord] "gsis" = .ok []
    ∧ filter_instructors_by_role [piRecord, unknownRoleRecord] "staff"
        = .ok [piRecord, unknownRoleRecord]
    ∧ filter_instructors_by_role [piRecord, unknownRoleRecord] "instructors"
        = .ok [piRecord] := by decide

/-- Claim C6, amended: on a pool of well-formed records, staff is a superset
of instructors and of gsis; instructors and gsis are disjoint; a record
without a role is excluded from all three modes; every record whose role
code is not APRX is in staff — so a record with an unknown role code lands
in staff while being excluded from instructors and gsis, and the three sets
do not partition the non-APRX pool. -/
theorem C6_role_filter_amended (pool li lg ls : List Json)
    (hw : ∀ x ∈ pool, roleWf x = true)
    (hi : filter_instructors_by_role pool "instructors" = .ok li)
    (hg : filter_instructors_by_role pool "gsis" = .ok lg)
    (hs : filter_instructors_by_role pool "staff" = .ok ls) :
    (∀ x, x ∈ li → x ∈ ls) ∧ (∀ x, x ∈ lg → x ∈ ls) ∧ (∀ x, x ∈ li → x ∉ lg) ∧
    (∀ x ∈ pool, recRoleCode x = none → x ∉ li ∧ x ∉ lg ∧ x ∉ ls) ∧
    (∀ x ∈ pool, ∀ c, recRoleCode x = some c → c ≠ .str "APRX" → x ∈ ls) ∧
    (∀ x ∈ pool, ∀ c, recRoleCode x = some c → c ≠ .str "PI" → c ≠ .str "TNIC" →
      x ∉ li ∧ x ∉ lg) := by
  rw [filter_instructors_by_role_wf pool _ hw] at hi hg hs
  obtain rfl : li = pool.filter (pureRolePred "instructors") := (Except.ok.inj hi).symm
  obtain rfl : lg = pool.filter (pureRolePred "gsis") := (Except.ok.inj hg).symm
  obtain rfl : ls = pool.filter (pureRolePred "staff") := (Except.ok.inj hs).symm
  refine ⟨?_, ?_, ?_, ?_, ?_, ?_⟩
  · intro x hx
    rw [List.mem_filter] at hx ⊢
    obtain ⟨hp, hq⟩ := hx
    rw [pureRolePred_instructors_iff] at hq
    exact ⟨hp, (pureRolePred_staff_iff x).mpr ⟨_, hq, by decide⟩⟩
  · intro x hx
    rw [List.mem_filter] at hx ⊢
    obtain ⟨hp, hq⟩ := hx
    rw [pureRolePred_gsis_iff] at hq
    exact ⟨hp, (pureRolePred_staff_iff x).mpr ⟨_, hq, by decide⟩⟩
  · intro x hx hgx
    rw [List.mem_filter, pureRolePred_instructors_iff] at hx
    rw [List.mem_filter, pureRolePred_gsis_iff] at hgx
    rw [hx.2] at hgx
    simp at hgx
  · intro x hx hnone
    refine ⟨?_, ?_, ?_⟩ <;> intro hmem
    · rw [List.mem_filter, pureRolePred_instructors_iff, hnone] at hmem
      simp at hmem
    · rw [List.mem_filter, pureRolePred_gsis_iff, hnone] at hmem
      simp at hmem
    · rw [List.mem_filter, pureRolePred_staff_iff, hnone] at hmem
      simp at hmem
  · intro x hx c hc hne
    exact List.mem_filter.mpr ⟨hx, (pureRolePred_staff_iff x).mpr ⟨c, hc, hne⟩⟩
  · intro x hx c hc h1 h2
    constructor <;> intro hmem
    · rw [List.mem_filter, pureRolePred_instructors_iff, hc] at hmem
      simp at hmem
      exact h1 hmem.2
    · rw [List.mem_filter, pureRolePred_gsis_iff, hc] at hmem
      simp at hmem
      exact h2 hmem.2

/-- Claim C6, witness: the amended role-filter facts at the concrete pool of
a primary instructor, a GSI, an unknown-role record and a record without a
role. -/
theorem C6_role_filter_witness :
    (∀ x, x ∈ [piRecord] → x ∈ [piRecord, tnicRecord, unknownRoleRecord])
    ∧ (∀ x, x ∈ [tnicRecord] → x ∈ [piRecord, tnicRecord, unknownRoleRecord])
    ∧ (∀ x, x ∈ [piRecord] → x ∉ [tnicRecord])
    ∧ (∀ x ∈ [piRecord, tnicRecord, unknownRoleRecord, noRoleRecord],
        recRoleCode x = none →
        x ∉ [piRecord] ∧ x ∉ [tnicRecord] ∧ x ∉ [piRecord, tnicRecord, unknownRoleRecord])
    ∧ (∀ x ∈ [piRecord, tnicRecord, unknownRoleRecord, noRoleRecord],
        ∀ c, recRoleCode x = some c → c ≠ .str "APRX" →
        x ∈ [piRecord, tnicRecord, unknownRoleRecord])
    ∧ (∀ x ∈ [piRecord, tnicRecord, unknownRoleRecord, noRoleRecord],
        ∀ c, recRoleCode x = some c → c ≠ .str "PI" → c ≠ .str "TNIC" →
        x ∉ [piRecord] ∧ x ∉ [tnicRecord]) :=
  C6_role_filter_amended [piRecord, tnicRecord, unknownRoleRecord, noRoleRecord]
    [piRecord] [tnicRecord] [piRecord, tnicRecord, unknownRoleRecord]
    (by decide) (by decide) (by decide) (by decide)

/-- Claim C7: the non-exact roster query over a course whose lecture and lab
both enroll student U1 returns the single-element set of U1 — the union is
computed over a set and collapses the duplicate. -/
theorem C7_nonexact_union_collapses :
    get_students 3 srvLectureLab "2262" "12345" "students" credsFix false "campus-uid"
      = .ok {Json.str "U1"}
    ∧ ({Json.str "U1"} : Finset Json).card = 1 := by decide

/-- Claim C8: a course query with an empty keyword-filter set returns the
empty collection and issues zero HTTP requests, for every fuel and oracle. -/
theorem C8_empty_filter_no_request (fuel : Nat) (srv : Server)
    (app_id app_key : String) :
    get_courses fuel srv app_id app_key [] = .ok (.arr [], 0) := rfl

/-- Claim C9, counterexample: when the very first request answers 404, the
parameter mapping is returned exactly as the caller passed it — it still
equals the original value, so the mapping does not always end up different. -/
theorem C9_unchanged_on_404_counterexample :
    get_items 1 srvAlways404 "u" [("page-number", .num 5)] [] "things"
      = .ok ⟨.arr [], [("page-number", .num 5)], [[("page-number", .num 5)]]⟩ := by
  decide

/-- Claim C9, amended: the page-number value is incremented in place once
per page from which items were extracted — after a run over k ≥ 1 pages it
ends at k + 1 and differs from the value 1 passed in — while a mapping
without a page-number key (and a mapping whose first response carries no
items) is returned unchanged. -/
theorem C9_param_mutation_amended :
    (∀ (uri itemType : String) (hdr : Headers) (k n : Nat), 1 ≤ k →
      get_items (k + 1) (srvPaged itemType k n) uri
          [("page-number", .num (1 : Int))] hdr itemType
        = .ok ⟨.arr (pagesConcat n 1 k),
               [("page-number", .num ((k + 1 : Nat) : Int))], pagedLog 1 k⟩
        ∧ [("page-number", Json.num ((k + 1 : Nat) : Int))]
            ≠ [("page-number", Json.num (1 : Int))])
    ∧ (∀ (fuel : Nat) (srv : Server) (uri : String) (params : Params)
        (hdr : Headers) (itemType : String) (out : FetchOut),
        getParam params "page-number" = none →
        get_items fuel srv uri params hdr itemType = .ok out →
        out.finalParams = params) := by
  constructor
  · intro uri itemType hdr k n hk
    constructor
    · have h := get_items_paged uri itemType hdr k n k 1 (by omega) (by omega)
      simpa using h
    · simp
      omega
  · intro fuel srv uri params hdr itemType out hnk h
    exact (get_items_no_page_key fuel srv uri params hdr itemType out hnk h).1

/-- Claim C9, witness: a two-page run ends with the page number at 3, and a
mapping without the page-number key comes back unchanged. -/
theorem C9_param_mutation_witness :
    (get_items 3 (srvPaged "things" 2 1) "u" [("page-number", .num (1 : Int))] []
        "things"
      = .ok ⟨.arr (pagesConcat 1 1 2),
             [("page-number", .num ((3 : Nat) : Int))], pagedLog 1 2⟩
      ∧ [("page-number", Json.num ((3 : Nat) : Int))]
          ≠ [("page-number", Json.num (1 : Int))]) :=
  C9_param_mutation_amended.1 "u" "things" [] 2 1 (by decide)

/-- Claim C10: uid and email extraction over an enrollment list preserve
length and order, and an enrollment without a matching entry contributes
null (Python None) instead of being dropped. -/
theorem C10_extraction_preserves_shape :
    (∀ es : List Json, (get_enrollment_uids es).length = es.length
      ∧ (get_enrollment_emails es).length = es.length)
    ∧ (∀ (es : List Json) (i : Nat),
        (get_enrollment_uids es)[i]? = (es[i]?).map enrollment_campus_uid)
    ∧ (∀ (es : List Json) (i : Nat),
        (get_enrollment_emails es)[i]? = (es[i]?).map enrollment_campus_email)
    ∧ get_enrollment_uids [emptyEnrollment, discloseExampleEnrollment]
        = [.null, .str "2"]
    ∧ get_enrollment_emails [emptyEnrollment] = [.null] := by
  refine ⟨?_, ?_, ?_, by decide, by decide⟩
  · intro es
    constructor <;> simp [get_enrollment_uids, get_enrollment_emails]
  · intro es i
    simp [get_enrollment_uids, List.getElem?_map]
  · intro es i
    simp [get_enrollment_emails, List.getElem?_map]

end SisCli
